import Mathlib

/-!
Verification of the Civic-issue-app repository: a shallow embedding of the
local-storage data model and the pure state transformations of its view
components (App, AdminHome, and the default-export UserHome), with theorems
about report filtering, dashboard statistics, report submission, status
updates, authentication, and tab navigation.
-/

namespace Civic

/-- The nested location record shared by every Report shape in the sources
(AdminHome interface, UserHome interfaces, demo data). JS numbers for
latitude/longitude are modelled as rationals. -/
structure Location where
  latitude : Rat
  longitude : Rat
  address : String
  village : String
  district : String
  pincode : String
  state : String
deriving DecidableEq

/-- A report object as it sits in the local-storage `reports` JSON array.
JSON objects are open records: the demo seed and AdminHome's interface carry
a singular `imageUrl` string, while the default-export UserHome's
`submitReport` writes a plural `imageUrls` array, so both image fields are
modelled as optional; likewise the triage fields `assignedTo`, `department`,
`comments` are optional. `status` is the raw JSON string. -/
structure StoredReport where
  id : String
  userId : String
  title : String
  description : String
  category : String
  imageUrl : Option String
  imageUrls : Option (List String)
  location : Location
  status : String
  timestamp : String
  assignedTo : Option String
  department : Option String
  comments : Option String
deriving DecidableEq

/-- The filter state of AdminHome: `useState({status: 'all', category: 'all',
district: 'all'})`. -/
structure Filters where
  status : String
  category : String
  district : String
deriving DecidableEq

/-- The filter effect of AdminHome (the `useEffect` applying `filters` to
`reports`): starting from the full list, it successively keeps only the
reports matching each filter whose value is not `all`. -/
def applyFilters (f : Filters) (reports : List StoredReport) : List StoredReport :=
  let filtered1 := if f.status != "all" then reports.filter (fun r => r.status == f.status) else reports
  let filtered2 := if f.category != "all" then filtered1.filter (fun r => r.category == f.category) else filtered1
  let filtered3 := if f.district != "all" then filtered2.filter (fun r => r.location.district == f.district) else filtered2
  filtered3

/-- Specification-side predicate for one report against one filter setting: a
report survives when every filter is either set to `all` or matches the
corresponding field (status, category, location.district). -/
def matchesFilters (f : Filters) (r : StoredReport) : Bool :=
  (f.status == "all" || r.status == f.status) &&
  (f.category == "all" || r.category == f.category) &&
  (f.district == "all" || r.location.district == f.district)

/-- C1: AdminHome's filter effect returns exactly the sub-list of reports
satisfying every filter whose value is not `all` (a filter set to `all`
matches every report), membership is as the claim states, and the surviving
reports keep their original relative order (sub-list of the input). -/
theorem adminHome_filter_exact (f : Filters) (reports : List StoredReport) :
    applyFilters f reports = reports.filter (matchesFilters f) ∧
    (∀ r, r ∈ applyFilters f reports ↔ r ∈ reports ∧ matchesFilters f r = true) ∧
    (applyFilters f reports).Sublist reports := by
  have hmain : applyFilters f reports = reports.filter (matchesFilters f) := by
    unfold applyFilters matchesFilters
    cases hs : (f.status == "all") <;> cases hc : (f.category == "all") <;>
      cases hd : (f.district == "all") <;>
      simp [bne, hs, hc, hd, List.filter_filter, Bool.and_comm, Bool.and_left_comm,
        Bool.and_assoc]
  refine ⟨hmain, ?_, ?_⟩
  · intro r
    rw [hmain]
    exact List.mem_filter
  · rw [hmain]
    exact List.filter_sublist reports

/-- The TypeScript union type of the `status` parameter of
`updateReportStatus`: `'pending' | 'in-progress' | 'resolved'`. -/
inductive Status where
  | pending
  | inProgress
  | resolved
deriving DecidableEq

/-- The JSON string a `Status` value denotes. -/
def Status.toStr : Status → String
  | .pending => "pending"
  | .inProgress => "in-progress"
  | .resolved => "resolved"

/-- The three status strings of the closed enumeration. -/
def validStatuses : List String := ["pending", "in-progress", "resolved"]

/-- AdminHome's `updateReportStatus`: maps over the reports, and for the
report whose id equals `reportId` spreads the old record and overrides
`status`, `department`, `comments` and `assignedTo` (the acting
administrator's `user.name`); every other report is returned as is. -/
def updateReportStatus (reports : List StoredReport) (reportId : String)
    (status : Status) (department comments : Option String)
    (adminName : String) : List StoredReport :=
  reports.map (fun report =>
    if report.id == reportId then
      { report with
        status := status.toStr
        department := department
        comments := comments
        assignedTo := some adminName }
    else report)

/-- C3: `updateReportStatus` preserves the list length; every report whose id
differs from `reportId` is returned completely unchanged at its position, and
every report whose id equals `reportId` gets exactly `status`, `department`,
`comments` and `assignedTo := adminName` overwritten, with id, userId, title,
description, category, both image fields, location and timestamp intact. -/
theorem updateReportStatus_frame (reports : List StoredReport) (reportId : String)
    (st : Status) (dept comm : Option String) (adminName : String) :
    (updateReportStatus reports reportId st dept comm adminName).length = reports.length ∧
    ∀ (i : Nat) (r r' : StoredReport), reports[i]? = some r →
      (updateReportStatus reports reportId st dept comm adminName)[i]? = some r' →
      (r.id ≠ reportId → r' = r) ∧
      (r.id = reportId →
        r'.status = st.toStr ∧ r'.department = dept ∧ r'.comments = comm ∧
        r'.assignedTo = some adminName ∧ r'.id = r.id ∧ r'.userId = r.userId ∧
        r'.title = r.title ∧ r'.description = r.description ∧
        r'.category = r.category ∧ r'.imageUrl = r.imageUrl ∧
        r'.imageUrls = r.imageUrls ∧ r'.location = r.location ∧
        r'.timestamp = r.timestamp) := by
  constructor
  · exact List.length_map reports _
  · intro i r r' hr hr'
    rw [updateReportStatus, List.getElem?_map, hr, Option.map_some'] at hr'
    have hr'' := (Option.some_inj.mp hr').symm
    constructor
    · intro hne
      rw [hr'', if_neg (by simpa using hne)]
    · intro heq
      rw [hr'', if_pos (by simpa using heq)]
      exact ⟨rfl, rfl, rfl, rfl, rfl, rfl, rfl, rfl, rfl, rfl, rfl, rfl, rfl⟩

/-- A small concrete report used to instantiate hypotheses of the theorems. -/
def sampleReport : StoredReport :=
  { id := "7"
    userId := "1"
    title := "Blocked drain"
    description := "Water logging"
    category := "drainage"
    imageUrl := some "img.jpg"
    imageUrls := none
    location :=
      { latitude := 0, longitude := 0, address := "Main St", village := "V",
        district := "D", pincode := "110001", state := "S" }
    status := "pending"
    timestamp := "2025-01-01T00:00:00.000Z"
    assignedTo := none
    department := none
    comments := none }

/-- Witness for C3: updating report "7" in a one-report store rewrites its
status to "in-progress" and keeps its title. -/
theorem updateReportStatus_frame_witness :
    sampleReport.id = "7" ∧
    ((updateReportStatus [sampleReport] "7" Status.inProgress
        (some "Public Works") none "Admin User")[0]?).map StoredReport.status
      = some "in-progress" ∧
    ((updateReportStatus [sampleReport] "7" Status.inProgress
        (some "Public Works") none "Admin User")[0]?).map StoredReport.title
      = some "Blocked drain" := by
  have h := (updateReportStatus_frame [sampleReport] "7" Status.inProgress
      (some "Public Works") none "Admin User").2 0 sampleReport
      { sampleReport with
        status := "in-progress", department := some "Public Works",
        comments := none, assignedTo := some "Admin User" }
      rfl (by decide)
  have h2 := h.2 rfl
  have heq : (updateReportStatus [sampleReport] "7" Status.inProgress
      (some "Public Works") none "Admin User")[0]?
      = some { sampleReport with
          status := "in-progress", department := some "Public Works",
          comments := none, assignedTo := some "Admin User" } := by decide
  refine ⟨rfl, ?_, ?_⟩
  · simp only [heq, Option.map_some', h2.1]
  · simp only [heq, Option.map_some', h2.2.2.2.2.2.2.1]
    rfl

/-- The statistics record returned by AdminHome's `getDashboardStats`. -/
structure DashboardStats where
  total : Nat
  pending : Nat
  inProgress : Nat
  resolved : Nat
deriving DecidableEq

/-- AdminHome's `getDashboardStats`: total is the length of `reports`, and
each of pending/inProgress/resolved is the length of the sub-list filtered by
the corresponding status string. -/
def getDashboardStats (reports : List StoredReport) : DashboardStats :=
  { total := reports.length
    pending := (reports.filter (fun r => r.status == "pending")).length
    inProgress := (reports.filter (fun r => r.status == "in-progress")).length
    resolved := (reports.filter (fun r => r.status == "resolved")).length }

/-- Helper: over a list whose statuses all lie in the closed enumeration, the
three status counts partition the length. -/
theorem status_counts_partition (reports : List StoredReport)
    (h : ∀ r ∈ reports, r.status ∈ validStatuses) :
    reports.length
      = (reports.filter (fun r => r.status == "pending")).length
        + (reports.filter (fun r => r.status == "in-progress")).length
        + (reports.filter (fun r => r.status == "resolved")).length := by
  induction reports with
  | nil => simp
  | cons r rs ih =>
    have hr := h r (List.mem_cons_self r rs)
    have hrs : ∀ x ∈ rs, x.status ∈ validStatuses :=
      fun x hx => h x (List.mem_cons_of_mem r hx)
    have hsum := ih hrs
    have hr3 : r.status = "pending" ∨ r.status = "in-progress" ∨ r.status = "resolved" := by
      simpa [validStatuses] using hr
    rcases hr3 with h1 | h1 | h1 <;>
      simp [List.filter_cons, h1, hsum] <;> omega

/-- C6: when every status lies in {pending, in-progress, resolved},
`getDashboardStats` returns total = length, each bucket counts the reports
with the corresponding status, and total = pending + inProgress + resolved. -/
theorem getDashboardStats_partition (reports : List StoredReport)
    (h : ∀ r ∈ reports, r.status ∈ validStatuses) :
    (getDashboardStats reports).total = reports.length ∧
    (getDashboardStats reports).pending
      = reports.countP (fun r => r.status == "pending") ∧
    (getDashboardStats reports).inProgress
      = reports.countP (fun r => r.status == "in-progress") ∧
    (getDashboardStats reports).resolved
      = reports.countP (fun r => r.status == "resolved") ∧
    (getDashboardStats reports).total
      = (getDashboardStats reports).pending + (getDashboardStats reports).inProgress
        + (getDashboardStats reports).resolved := by
  refine ⟨rfl, ?_, ?_, ?_, ?_⟩
  · simp [getDashboardStats, List.countP_eq_length_filter]
  · simp [getDashboardStats, List.countP_eq_length_filter]
  · simp [getDashboardStats, List.countP_eq_length_filter]
  · simpa [getDashboardStats] using status_counts_partition reports h

/-- The two demo reports App seeds into the `reports` local-storage key when
it is absent. Their timestamps are computed from `Date.now()` at runtime and
are therefore parameters. -/
def demoReports (ts1 ts2 : String) : List StoredReport :=
  [ { id := "1"
      userId := "1"
      title := "Large Pothole on Main Street"
      description := "Deep pothole causing damage to vehicles. Located near the traffic signal."
      category := "pothole"
      imageUrl := some "https://images.unsplash.com/photo-1709934730506-fba12664d4e4"
      imageUrls := none
      location :=
        { latitude := 28.6139, longitude := 77.2090,
          address := "Main Street, Near Traffic Signal", village := "Central Delhi",
          district := "New Delhi", pincode := "110001", state := "Delhi" }
      status := "pending"
      timestamp := ts1
      assignedTo := none
      department := none
      comments := none },
    { id := "2"
      userId := "1"
      title := "Streetlight Not Working"
      description := "Street light has been non-functional for over a week, making the area unsafe at night."
      category := "streetlight"
      imageUrl := some "https://images.unsplash.com/photo-1742119193536-7d228ef7f466"
      imageUrls := none
      location :=
        { latitude := 28.6129, longitude := 77.2295,
          address := "Park Road, Sector 5", village := "Sector 5",
          district := "New Delhi", pincode := "110001", state := "Delhi" }
      status := "in-progress"
      timestamp := ts2
      assignedTo := some "Admin User"
      department := some "Public Works"
      comments := none } ]

/-- Witness for C6: the dashboard statistics of the seeded demo store satisfy
the hypothesis and partition its two reports. -/
theorem getDashboardStats_partition_witness :
    (∀ r ∈ demoReports "t1" "t2", r.status ∈ validStatuses) ∧
    (getDashboardStats (demoReports "t1" "t2")).total
      = (getDashboardStats (demoReports "t1" "t2")).pending
        + (getDashboardStats (demoReports "t1" "t2")).inProgress
        + (getDashboardStats (demoReports "t1" "t2")).resolved := by
  have hstat : ∀ r ∈ demoReports "t1" "t2", r.status ∈ validStatuses := by
    intro r hr
    simp only [demoReports, List.mem_cons, List.not_mem_nil, or_false] at hr
    rcases hr with h | h <;> simp [h, validStatuses]
  exact ⟨hstat, (getDashboardStats_partition (demoReports "t1" "t2") hstat).2.2.2.2⟩

/-- The `User` record every component receives after login: id, email, name,
isAdmin (no password). -/
structure CUser where
  id : String
  email : String
  name : String
  isAdmin : Bool
deriving DecidableEq

/-- The geolocation capture held in UserHome's `location` state. -/
structure GeoLocation where
  latitude : Rat
  longitude : Rat
deriving DecidableEq

/-- The `formData` state of the default-export UserHome: title, description,
category (initially "pothole"), a list of image URLs, and the five manual
location text fields. -/
structure FormData where
  title : String
  description : String
  category : String
  imageUrls : List String
  address : String
  village : String
  district : String
  pincode : String
  state : String
deriving DecidableEq

/-- The initial (and post-submit reset) form state of UserHome. -/
def initialFormData : FormData :=
  { title := "", description := "", category := "pothole", imageUrls := [],
    address := "", village := "", district := "", pincode := "", state := "" }

/-- The `type` tag of a UserHome alert. -/
inductive AlertKind where
  | success
  | error
deriving DecidableEq

/-- The state touched by UserHome's `submitReport`: the local-storage
`reports` array, the component's own `reports` list, the form, the captured
location, the transient alert, and the active tab. -/
structure UserHomeState where
  reportsStore : List StoredReport
  reports : List StoredReport
  formData : FormData
  location : Option GeoLocation
  alert : Option (AlertKind × String)
  activeTab : String
deriving DecidableEq

/-- The report object literal `submitReport` builds: fields id, userId,
title, description, category, imageUrls (the plural list; no singular
imageUrl key is written), location (latitude/longitude defaulting to 0 when
no capture), status "pending", timestamp. `newId` stands for
`Date.now().toString()` and `timestamp` for `new Date().toISOString()`. -/
def mkNewReport (userId newId timestamp : String) (form : FormData)
    (loc : Option GeoLocation) : StoredReport :=
  { id := newId
    userId := userId
    title := form.title
    description := form.description
    category := form.category
    imageUrl := none
    imageUrls := some form.imageUrls
    location :=
      { latitude := (loc.map GeoLocation.latitude).getD 0
        longitude := (loc.map GeoLocation.longitude).getD 0
        address := form.address
        village := form.village
        district := form.district
        pincode := form.pincode
        state := form.state }
    status := "pending"
    timestamp := timestamp
    assignedTo := none
    department := none
    comments := none }

/-- UserHome's `submitReport`: if title or description is empty or there is
no image, or there is neither a captured location nor a non-empty address, it
only sets an error alert; otherwise it appends the new report to the store
and to the user's list, resets the form and location, sets a success alert,
and switches to the myReports tab. -/
def submitReport (user : CUser) (newId timestamp : String)
    (s : UserHomeState) : UserHomeState :=
  if s.formData.title == "" || s.formData.description == ""
      || s.formData.imageUrls.length == 0 then
    { s with alert := some (AlertKind.error, "Fill all fields and add image") }
  else if s.location.isNone && s.formData.address == "" then
    { s with alert := some (AlertKind.error, "Provide location or address") }
  else
    { s with
      reportsStore :=
        s.reportsStore ++ [mkNewReport user.id newId timestamp s.formData s.location]
      reports :=
        s.reports ++ [mkNewReport user.id newId timestamp s.formData s.location]
      formData := initialFormData
      location := none
      alert := some (AlertKind.success, "Report submitted")
      activeTab := "myReports" }

/-- The conjunction of the validation checks `submitReport` performs (true
when no check fails). -/
def formValid (form : FormData) (loc : Option GeoLocation) : Bool :=
  !(form.title == "" || form.description == "" || form.imageUrls.length == 0)
    && !(loc.isNone && form.address == "")

/-- C4: when a validation check fails, `submitReport` leaves the reports
store, the user's report list, the form state and the captured location
unchanged and sets an error alert; and the store gets the new report
appended exactly when every validation check passes. -/
theorem submitReport_validation (user : CUser) (newId timestamp : String)
    (s : UserHomeState) :
    (formValid s.formData s.location = false →
      (submitReport user newId timestamp s).reportsStore = s.reportsStore ∧
      (submitReport user newId timestamp s).reports = s.reports ∧
      (submitReport user newId timestamp s).formData = s.formData ∧
      (submitReport user newId timestamp s).location = s.location ∧
      ∃ msg, (submitReport user newId timestamp s).alert
        = some (AlertKind.error, msg)) ∧
    ((submitReport user newId timestamp s).reportsStore
        = s.reportsStore
          ++ [mkNewReport user.id newId timestamp s.formData s.location]
      ↔ formValid s.formData s.location = true) := by
  by_cases h1 : (s.formData.title == "" || s.formData.description == ""
      || s.formData.imageUrls.length == 0) = true
  · constructor
    · intro _
      rw [submitReport, if_pos h1]
      exact ⟨rfl, rfl, rfl, rfl, "Fill all fields and add image", rfl⟩
    · constructor
      · intro habs
        rw [submitReport, if_pos h1] at habs
        simp at habs
      · intro hv
        rw [formValid, h1] at hv
        simp at hv
  · have h1f : (s.formData.title == "" || s.formData.description == ""
        || s.formData.imageUrls.length == 0) = false := by
      simpa using h1
    by_cases h2 : (s.location.isNone && s.formData.address == "") = true
    · constructor
      · intro _
        rw [submitReport, if_neg h1, if_pos h2]
        exact ⟨rfl, rfl, rfl, rfl, "Provide location or address", rfl⟩
      · constructor
        · intro habs
          rw [submitReport, if_neg h1, if_pos h2] at habs
          simp at habs
        · intro hv
          rw [formValid, h1f, h2] at hv
          simp at hv
    · have h2f : (s.location.isNone && s.formData.address == "") = false := by
        simpa using h2
      have hv : formValid s.formData s.location = true := by
        rw [formValid, h1f, h2f]
        rfl
      constructor
      · intro habs
        rw [hv] at habs
        simp at habs
      · constructor
        · intro _
          exact hv
        · intro _
          rw [submitReport, if_neg h1, if_neg h2]

/-- The empty initial UserHome state over an empty store, with the initial
form, used to instantiate the failure branch of `submitReport`. -/
def emptyUserState : UserHomeState :=
  { reportsStore := [], reports := [], formData := initialFormData,
    location := none, alert := none, activeTab := "report" }

/-- The stripped demo citizen user, as stored in `currentUser` after a demo
login. -/
def demoCitizen : CUser :=
  { id := "1", email := "user@demo.com", name := "Demo User", isAdmin := false }

/-- Witness for C4: submitting the initial empty form fails validation and
leaves the store and the form untouched. -/
theorem submitReport_validation_witness :
    formValid initialFormData none = false ∧
    (submitReport demoCitizen "100" "t0" emptyUserState).reportsStore = [] ∧
    (submitReport demoCitizen "100" "t0" emptyUserState).formData = initialFormData := by
  have h := (submitReport_validation demoCitizen "100" "t0" emptyUserState).1 (by decide)
  exact ⟨by decide, h.1, h.2.2.1⟩

/-- One write to the `reports` local-storage key: either a validated citizen
submission appends the new report, or an administrator rewrites a report's
triage fields through `updateReportStatus` (whose status argument is confined
to the three-value union type). -/
inductive StoreStep : List StoredReport → List StoredReport → Prop
  | submit (store : List StoredReport) (user : CUser) (newId timestamp : String)
      (form : FormData) (loc : Option GeoLocation)
      (hv : formValid form loc = true) :
      StoreStep store (store ++ [mkNewReport user.id newId timestamp form loc])
  | update (store : List StoredReport) (reportId : String) (st : Status)
      (dept comm : Option String) (adminName : String) :
      StoreStep store (updateReportStatus store reportId st dept comm adminName)

/-- The reports stores the program can ever persist: the seeded demo store
followed by any sequence of submission and triage writes. -/
inductive ReachableStore : List StoredReport → Prop
  | init (ts1 ts2 : String) : ReachableStore (demoReports ts1 ts2)
  | step (rs rs' : List StoredReport) (h : ReachableStore rs)
      (hs : StoreStep rs rs') : ReachableStore rs'

/-- C2: in every reachable reports store — the seeded demo reports, after any
submissions (which write status "pending") and any `updateReportStatus`
rewrites — every report's status lies in {pending, in-progress, resolved}. -/
theorem reachable_status_closed (rs : List StoredReport)
    (h : ReachableStore rs) : ∀ r ∈ rs, r.status ∈ validStatuses := by
  induction h with
  | init ts1 ts2 =>
    intro r hr
    simp only [demoReports, List.mem_cons, List.not_mem_nil, or_false] at hr
    rcases hr with h | h <;> simp [h, validStatuses]
  | step rs rs' _ hs ih =>
    intro r hr
    cases hs with
    | submit user newId timestamp form loc hv =>
      rcases List.mem_append.mp hr with hold | hnew
      · exact ih r hold
      · have : r = mkNewReport user.id newId timestamp form loc := by
          simpa using hnew
        rw [this]
        simp [mkNewReport, validStatuses]
    | update reportId st dept comm adminName =>
      rcases List.mem_map.mp hr with ⟨r0, hr0, hmap⟩
      by_cases hid : (r0.id == reportId) = true
      · rw [← hmap, if_pos hid]
        cases st <;> simp [Status.toStr, validStatuses]
      · rw [← hmap, if_neg hid]
        exact ih r0 hr0

/-- Witness for C2: the seeded demo store is reachable and all of its
statuses lie in the closed enumeration. -/
theorem reachable_status_closed_witness :
    (demoReports "t1" "t2").all (fun r => validStatuses.contains r.status) = true := by
  have h := reachable_status_closed (demoReports "t1" "t2")
      (ReachableStore.init "t1" "t2")
  rw [List.all_eq_true]
  intro r hr
  simpa using h r hr

/-- A concrete form state that passes every validation check of
`submitReport` (non-empty title, description and image list, and a manual
address in place of a captured location). -/
def ghostFormData : FormData :=
  { title := "Pothole", description := "Deep pothole", category := "pothole",
    imageUrls := ["img1.jpg"], address := "Main St", village := "",
    district := "", pincode := "", state := "" }

/-- A UserHome state holding `ghostFormData` over an empty store. -/
def ghostState : UserHomeState :=
  { reportsStore := [], reports := [], formData := ghostFormData,
    location := none, alert := none, activeTab := "report" }

/-- C7: `submitReport` takes no users store at all — mirroring the source,
which never reads the `users` key — and for every user id and every form
state passing validation it appends a report carrying exactly that id; in
particular a report whose userId ("999") matches no seeded demo user id is
persisted. -/
theorem submitReport_no_referential_integrity :
    (∀ (user : CUser) (newId timestamp : String) (s : UserHomeState),
      formValid s.formData s.location = true →
        (submitReport user newId timestamp s).reportsStore
          = s.reportsStore
            ++ [mkNewReport user.id newId timestamp s.formData s.location] ∧
        (mkNewReport user.id newId timestamp s.formData s.location).userId
          = user.id) ∧
    (formValid ghostFormData none = true ∧
      (mkNewReport "999" "100" "t0" ghostFormData none).userId = "999" ∧
      "999" ∉ ["1", "2"]) := by
  constructor
  · intro user newId timestamp s hv
    exact ⟨((submitReport_validation user newId timestamp s).2).mpr hv, rfl⟩
  · exact ⟨by decide, rfl, by decide⟩

/-- A ghost user whose id matches no seeded demo user. -/
def ghostUser : CUser :=
  { id := "999", email := "ghost@x.com", name := "Ghost", isAdmin := false }

/-- Witness for C7: submitting the valid ghost form as user "999" appends a
report with userId "999" to the empty store. -/
theorem submitReport_no_referential_integrity_witness :
    formValid ghostFormData none = true ∧
    (submitReport ghostUser "100" "t0" ghostState).reportsStore
      = [mkNewReport "999" "100" "t0" ghostFormData none] := by
  have h := submitReport_no_referential_integrity.1 ghostUser "100" "t0"
      ghostState (by decide)
  exact ⟨by decide, by simpa [ghostState, ghostUser] using h.1⟩

/-- A user record as stored in the `users` local-storage array: the four
public fields plus the plaintext password. -/
structure UserRec where
  id : String
  email : String
  password : String
  name : String
  isAdmin : Bool
deriving DecidableEq

/-- The two demo users App seeds into the `users` key when it is absent. -/
def demoUsers : List UserRec :=
  [ { id := "1", email := "user@demo.com", password := "password123",
      name := "Demo User", isAdmin := false },
    { id := "2", email := "admin@demo.com", password := "admin123",
      name := "Admin User", isAdmin := true } ]

/-- The destructuring `const (password: _, ...userWithoutPassword) = user`:
every field of the record except `password` is kept. -/
def stripPassword (u : UserRec) : CUser :=
  { id := u.id, email := u.email, name := u.name, isAdmin := u.isAdmin }

/-- App's `handleLogin`: find a stored user matching email and password; on a
hit, strip the password and store the rest as `currentUser` (returning true),
otherwise change nothing (returning false). The stored `currentUser` is the
`some` value. -/
def handleLogin (users : List UserRec) (email password : String) : Option CUser :=
  (users.find? (fun u => u.email == email && u.password == password)).map stripPassword

/-- App's `handleRegister`: append the new user record (with password) to the
`users` store, and store its password-stripped projection as `currentUser`.
`newId` stands for `Date.now().toString()`. -/
def handleRegister (users : List UserRec) (newId email password name : String)
    (isAdmin : Bool) : List UserRec × CUser :=
  let newUser : UserRec :=
    { id := newId, email := email, password := password, name := name,
      isAdmin := isAdmin }
  (users ++ [newUser], stripPassword newUser)

/-- The JSON keys of a record in the `users` store. -/
def userRecFields : List String := ["id", "email", "password", "name", "isAdmin"]

/-- The JSON keys of the object written to the `currentUser` key: the rest
pattern keeps every `users`-store field except `password`. -/
def currentUserFields : List String := userRecFields.erase "password"

/-- C9: the persisted `currentUser` never contains a password: its keys are
exactly {id, email, name, isAdmin}; every successful `handleLogin` stores the
password-stripped projection of a matching stored user, and `handleRegister`
stores the password-stripped projection of the record it appends, with the
four public fields copied verbatim. -/
theorem currentUser_never_has_password :
    (currentUserFields = ["id", "email", "name", "isAdmin"] ∧
      "password" ∉ currentUserFields) ∧
    (∀ (users : List UserRec) (email pw : String) (cu : CUser),
      handleLogin users email pw = some cu →
        ∃ u ∈ users, u.email = email ∧ u.password = pw ∧ cu = stripPassword u) ∧
    (∀ (users : List UserRec) (newId email pw name : String) (isAdmin : Bool),
      (handleRegister users newId email pw name isAdmin).2
          = stripPassword
              { id := newId, email := email, password := pw, name := name,
                isAdmin := isAdmin } ∧
        (handleRegister users newId email pw name isAdmin).2.id = newId ∧
        (handleRegister users newId email pw name isAdmin).2.email = email ∧
        (handleRegister users newId email pw name isAdmin).2.name = name ∧
        (handleRegister users newId email pw name isAdmin).2.isAdmin = isAdmin) := by
  refine ⟨⟨by decide, by decide⟩, ?_, ?_⟩
  · intro users email pw cu hcu
    rw [handleLogin] at hcu
    cases hfind : users.find? (fun u => u.email == email && u.password == pw) with
    | none => rw [hfind] at hcu; simp at hcu
    | some u =>
      rw [hfind, Option.map_some'] at hcu
      have hmem := List.mem_of_find?_eq_some hfind
      have hpred := List.find?_some hfind
      simp only [Bool.and_eq_true, beq_iff_eq] at hpred
      exact ⟨u, hmem, hpred.1, hpred.2, (Option.some_inj.mp hcu).symm⟩
  · intro users newId email pw name isAdmin
    exact ⟨rfl, rfl, rfl, rfl, rfl⟩

/-- Witness for C9: logging in with the demo citizen credentials stores
exactly the password-stripped demo user. -/
theorem currentUser_never_has_password_witness :
    handleLogin demoUsers "user@demo.com" "password123" = some demoCitizen ∧
    ∃ u ∈ demoUsers, u.email = "user@demo.com" ∧ u.password = "password123" ∧
      demoCitizen = stripPassword u := by
  have hlogin : handleLogin demoUsers "user@demo.com" "password123"
      = some demoCitizen := by decide
  exact ⟨hlogin,
    currentUser_never_has_password.2.1 demoUsers "user@demo.com" "password123"
      demoCitizen hlogin⟩

/-- The JSON keys of the object literal persisted by the default-export
UserHome's `submitReport`. -/
def submitReportFields : List String :=
  ["id", "userId", "title", "description", "category", "imageUrls",
   "location", "status", "timestamp"]

/-- The required keys of the `Report` interface AdminHome declares (whose
`imageUrl` field AdminHome renders for every report); the optional keys
`assignedTo`, `department`, `comments` are omitted. -/
def adminReportRequiredFields : List String :=
  ["id", "userId", "title", "description", "category", "imageUrl",
   "location", "status", "timestamp"]

/-- C5 counterexample: AdminHome's Report shape requires the singular
`imageUrl` key, but the object `submitReport` persists carries no such key —
concretely, the report built from the valid ghost form has `imageUrl` absent
(and its images under the plural `imageUrls` key instead). -/
theorem submitReport_shape_counterexample :
    "imageUrl" ∈ adminReportRequiredFields ∧
    "imageUrl" ∉ submitReportFields ∧
    "imageUrls" ∈ submitReportFields ∧
    formValid ghostFormData none = true ∧
    (mkNewReport "999" "100" "t0" ghostFormData none).imageUrl = none ∧
    (mkNewReport "999" "100" "t0" ghostFormData none).imageUrls
      = some ["img1.jpg"] := by
  exact ⟨by decide, by decide, by decide, by decide, rfl, rfl⟩

/-- C5 amended: every report persisted by `submitReport` carries the fields
{id, userId, title, description, category, imageUrls, location, status,
timestamp}; it carries the plural `imageUrls` list and never the singular
`imageUrl` key that AdminHome's Report interface declares and renders, so the
citizen and admin report shapes differ exactly in the image field. -/
theorem submitReport_shape_amended (userId newId timestamp : String)
    (form : FormData) (loc : Option GeoLocation) :
    (mkNewReport userId newId timestamp form loc).imageUrls
      = some form.imageUrls ∧
    (mkNewReport userId newId timestamp form loc).imageUrl = none ∧
    "imageUrls" ∈ submitReportFields ∧
    "imageUrl" ∉ submitReportFields ∧
    "imageUrl" ∈ adminReportRequiredFields ∧
    submitReportFields.erase "imageUrls"
      = adminReportRequiredFields.erase "imageUrl" := by
  exact ⟨rfl, rfl, by decide, by decide, by decide, by decide⟩

/-- The initial value of AdminHome's `activeTab` state:
`useState('dashboard')`. -/
def adminInitialTab : String := "dashboard"

/-- The values AdminHome's UI can set `activeTab` to: the four `TabsTrigger`
values wired through `onValueChange={setActiveTab}`; the Recent Reports Eye
button's `setActiveTab('reports')` targets a member of this list. -/
def adminTabTargets : List String :=
  ["dashboard", "reports", "map", "analytics"]

/-- The reachable values of AdminHome's `activeTab`: the initial tab, or any
tab a click can select. -/
inductive AdminTabReachable : String → Prop
  | init : AdminTabReachable adminInitialTab
  | select (a b : String) (h : AdminTabReachable a) (hb : b ∈ adminTabTargets) :
      AdminTabReachable b

/-- The initial value of UserHome's `activeTab` state: `useState('report')`. -/
def userInitialTab : String := "report"

/-- The values UserHome's two navigation buttons (and the post-submit switch)
can set `activeTab` to. -/
def userTabTargets : List String := ["report", "myReports"]

/-- The reachable values of UserHome's `activeTab`. -/
inductive UserTabReachable : String → Prop
  | init : UserTabReachable userInitialTab
  | select (a b : String) (h : UserTabReachable a) (hb : b ∈ userTabTargets) :
      UserTabReachable b

/-- C8 counterexample: AdminHome's `activeTab` reaches four pairwise distinct
values — dashboard, reports, map and analytics — so it takes more than three
distinct values. -/
theorem admin_tab_four_values :
    AdminTabReachable "dashboard" ∧ AdminTabReachable "reports" ∧
    AdminTabReachable "map" ∧ AdminTabReachable "analytics" ∧
    ["dashboard", "reports", "map", "analytics"].Nodup := by
  refine ⟨AdminTabReachable.init, ?_, ?_, ?_, by decide⟩
  · exact AdminTabReachable.select "dashboard" "reports"
      AdminTabReachable.init (by decide)
  · exact AdminTabReachable.select "dashboard" "map"
      AdminTabReachable.init (by decide)
  · exact AdminTabReachable.select "dashboard" "analytics"
      AdminTabReachable.init (by decide)

/-- C8 amended: each component's `activeTab` ranges over a fixed finite set —
AdminHome's over the four values {dashboard, reports, map, analytics} and
UserHome's over the two values {report, myReports}. -/
theorem tab_selector_values_bounded :
    (∀ v, AdminTabReachable v → v ∈ adminTabTargets) ∧
    (∀ v, UserTabReachable v → v ∈ userTabTargets) ∧
    adminTabTargets.length = 4 ∧ userTabTargets.length = 2 := by
  refine ⟨?_, ?_, rfl, rfl⟩
  · intro v h
    induction h with
    | init => decide
    | select a b _ hb _ => exact hb
  · intro v h
    induction h with
    | init => decide
    | select a b _ hb _ => exact hb

/-- Witness for the amended C8: the reachable map tab lies in AdminHome's
four-value set and the reachable myReports tab in UserHome's two-value set. -/
theorem tab_selector_values_bounded_witness :
    "map" ∈ adminTabTargets ∧ "myReports" ∈ userTabTargets := by
  constructor
  · exact tab_selector_values_bounded.1 "map"
      (AdminTabReachable.select "dashboard" "map" AdminTabReachable.init (by decide))
  · exact tab_selector_values_bounded.2.1 "myReports"
      (UserTabReachable.select "report" "myReports" UserTabReachable.init (by decide))

/-- UserHome's load effect: the component's report list is the `reports`
store filtered to the logged-in user's id. -/
def loadUserReports (store : List StoredReport) (userId : String) : List StoredReport :=
  store.filter (fun r => r.userId == userId)

/-- The My Reports count UserHome displays: `reports.length` over the loaded
list. -/
def myReportsCount (store : List StoredReport) (userId : String) : Nat :=
  (loadUserReports store userId).length

/-- C10: the list loaded into My Reports contains exactly the stored reports
whose userId equals the logged-in user's id, and the displayed count equals
the number of such reports. -/
theorem myReports_scoped_to_user (store : List StoredReport) (uid : String) :
    (∀ r, r ∈ loadUserReports store uid ↔ r ∈ store ∧ r.userId = uid) ∧
    myReportsCount store uid = store.countP (fun r => r.userId == uid) := by
  constructor
  · intro r
    simp [loadUserReports, List.mem_filter]
  · simp [myReportsCount, loadUserReports, List.countP_eq_length_filter]

/-- Witness for C10: in a store holding one report of user "1" and one demo
report of another user id, user "999" loads no reports and user "1" loads
exactly its own. -/
theorem myReports_scoped_to_user_witness :
    (sampleReport ∈ loadUserReports [sampleReport] "1"
      ↔ sampleReport ∈ [sampleReport] ∧ sampleReport.userId = "1") ∧
    myReportsCount [sampleReport] "999" = 0 := by
  constructor
  · exact (myReports_scoped_to_user [sampleReport] "1").1 sampleReport
  · have h := (myReports_scoped_to_user [sampleReport] "999").2
    simpa using h

/-- Witness for C1: filtering the seeded demo store by status "pending"
agrees with the specification-side filter and is a sub-list of the store. -/
theorem adminHome_filter_exact_witness :
    applyFilters
        { status := "pending", category := "all", district := "all" }
        (demoReports "t1" "t2")
      = (demoReports "t1" "t2").filter
          (matchesFilters
            { status := "pending", category := "all", district := "all" }) ∧
    (applyFilters
        { status := "pending", category := "all", district := "all" }
        (demoReports "t1" "t2")).Sublist (demoReports "t1" "t2") := by
  exact
    ⟨(adminHome_filter_exact
        { status := "pending", category := "all", district := "all" }
        (demoReports "t1" "t2")).1,
      (adminHome_filter_exact
        { status := "pending", category := "all", district := "all" }
        (demoReports "t1" "t2")).2.2⟩

/-- Witness for the amended C5: the concrete ghost submission carries its
images under `imageUrls` and has no `imageUrl`. -/
theorem submitReport_shape_amended_witness :
    (mkNewReport "1" "100" "t0" ghostFormData none).imageUrls
      = some ["img1.jpg"] ∧
    (mkNewReport "1" "100" "t0" ghostFormData none).imageUrl = none := by
  have h := submitReport_shape_amended "1" "100" "t0" ghostFormData none
  exact ⟨by rw [h.1]; rfl, h.2.1⟩

end Civic
